import Mathlib

/-!
Verification of the GSD gunshot-detection recorder (`src/main.py`,
`src/pretrained_detector.py`, `src/mic_test.py`) against its
natural-language specification.

The Python program is shallowly embedded: module-level constants become
Lean constants, pure functions become Lean functions, and the stateful
recorder (`AudioRecorder`) becomes explicit state passing over a
`RecorderState` record with injected failure flags standing for the
exceptions the sounddevice layer can raise.
-/

namespace GSD

/-! ## Configuration constants (`main.py` lines 11-20) -/

def SAMPLE_RATE : ℕ := 44100
def DURATION : ℕ := 5
def CHANNELS : ℕ := 1
def DB_MIN : ℝ := -60
def DB_MAX : ℝ := 0
def METER_WIDTH : ℕ := 40

/-! ## Sample-rate negotiation (`AudioRecorder.__init__`, `main.py` 41-54)

`__init__` queries the default input device; when the device's
`default_samplerate` differs from `SAMPLE_RATE` it logs a warning and
assigns the module-level global `LOCAL_SAMPLE_RATE`.  That global is
never read anywhere in the repository; the stream, the classifier call
and the WAV header each use the constant `SAMPLE_RATE`. -/

/-- The value stored into the global `LOCAL_SAMPLE_RATE` by `__init__`
(`main.py` 47-50): the device rate when it differs from `SAMPLE_RATE`,
otherwise the global is never assigned (modelled as `none`). -/
def localSampleRate (deviceRate : ℕ) : Option ℕ :=
  if deviceRate ≠ SAMPLE_RATE then some deviceRate else none

/-- The rate the engine adopts for capture according to the spec's
"adopt the device rate" branch: the device rate whenever it differs
from the requested one. -/
def adoptedRate (deviceRate : ℕ) : ℕ :=
  if deviceRate ≠ SAMPLE_RATE then deviceRate else SAMPLE_RATE

/-- Rate passed to `sd.InputStream` in `_initialize_stream`
(`main.py` 109): the constant `SAMPLE_RATE`, whatever the device rate. -/
def streamOpenRate (_deviceRate : ℕ) : ℕ := SAMPLE_RATE

/-- Rate passed to `detector.detect` in `main` (`main.py` 190):
the constant `SAMPLE_RATE`. -/
def classifierInvokeRate (_deviceRate : ℕ) : ℕ := SAMPLE_RATE

/-- Rate written by `wf.setframerate` in `save_audio` (`main.py` 163):
the constant `SAMPLE_RATE`. -/
def wavHeaderRate (_deviceRate : ℕ) : ℕ := SAMPLE_RATE

/-! ## WAV persistence (`AudioRecorder.save_audio`, `main.py` 157-165)

The in-memory window is a numpy `float32` array (the dtype of
`sd.InputStream` chunks), so `audio_data.tobytes()` yields 4 bytes per
sample.  The `wave` module derives the frame count of the finished file
from the number of bytes written: `nframes = nbytes / (nchannels *
sampwidth)`. -/

/-- Bytes per sample of the in-memory window: numpy `float32`. -/
def floatSampleBytes : ℕ := 4

structure WavFile where
  nchannels : ℕ
  sampwidth : ℕ
  framerate : ℕ
  dataBytes : ℕ
  deriving DecidableEq, Repr

/-- Whether `os.makedirs(SAVE_PATH, exist_ok=True)` ran (`main.py` 158). -/
def saveCreatesDirectory : Bool := true

/-- `save_audio` (`main.py` 157-165): header fields from `setnchannels`,
`setsampwidth(2)`, `setframerate(SAMPLE_RATE)`; payload is
`audio_data.tobytes()`, i.e. `floatSampleBytes` per float sample. -/
def save_audio (samples : List ℚ) : WavFile :=
  { nchannels := CHANNELS
    sampwidth := 2
    framerate := SAMPLE_RATE
    dataBytes := floatSampleBytes * samples.length }

/-- Frame count the `wave` module records for the finished file:
bytes written divided by bytes per frame. -/
def wavFrameCount (w : WavFile) : ℕ := w.dataBytes / (w.nchannels * w.sampwidth)

/-! ## Capture buffer (`main.py` 120-127, 131, 155)

`audio_buffer` is a plain Python list.  The producer appends with
`self.audio_buffer.extend(indata.copy())`; the consumer reads it once
per window with `return np.array(self.audio_buffer)` (`main.py` 155),
which copies the contents but does not clear them; the only clearing is
`self.audio_buffer = []` at the top of the next `record` call. -/

/-- `push`: the callback's `extend` (`main.py` 124). -/
def push (buffer chunk : List ℚ) : List ℚ := buffer ++ chunk

/-- `drainAll`: the consumer's read-out of the accumulated window,
`np.array(self.audio_buffer)` (`main.py` 155).  Returns the contents
and the buffer as the code leaves it — unchanged, since the code never
clears the list at drain time. -/
def drainAll (buffer : List ℚ) : List ℚ × List ℚ := (buffer, buffer)

/-! ## Decibel computation (`AudioRecorder.calculate_db`, `main.py` 56-71) -/

/-- `calculate_db`: RMS of the samples converted to decibels and clamped
to `[DB_MIN, DB_MAX]`; empty input and zero RMS are special-cased to
`DB_MIN` (`main.py` 58-71). -/
noncomputable def calculate_db (audio_data : List ℝ) : ℝ :=
  if audio_data.length = 0 then DB_MIN
  else
    let rms := Real.sqrt (((audio_data.map (fun x => x ^ 2)).sum) / audio_data.length)
    let db := if rms > 0 then 20 * Real.logb 10 rms else DB_MIN
    max (min db DB_MAX) DB_MIN

/-! ## Recorder stream lifecycle (`main.py` 101-155)

`sd.InputStream` objects move through three states: `closed` (never
constructed, or `close()` called), `opened` (constructed but not
started) and `active` (started).  The `with self.stream:` block starts
the stream on entry and stops-then-closes it on normal or exceptional
exit of the body; if entry itself (the `start()`) raises, Python does
not run the exit handler.  The `finally` clause of `record` closes the
stream only when `self.stream.active` is true.

Exceptions raised by the sounddevice layer are injected through
`FailSpec`: `failInit` makes the `sd.InputStream` constructor raise
(caught inside `_initialize_stream`, which then returns `False`),
`failStart` makes `stream.start()` raise on entering the `with` block,
and `failSleep` makes the body of the `with` block raise (e.g.
`sd.sleep` interrupted).  `stop()`/`close()` are modelled as the
infallible teardown they are in PortAudio. -/

inductive StreamState where
  | closed
  | opened
  | active
  deriving DecidableEq, Repr

structure RecorderState where
  stream : StreamState
  buffer : List ℚ
  isRecording : Bool
  deriving DecidableEq, Repr

structure FailSpec where
  failInit : Bool
  failStart : Bool
  failSleep : Bool
  deriving DecidableEq, Repr

/-- The spec with no injected failure: a healthy device. -/
def noFail : FailSpec := ⟨false, false, false⟩

/-- `_initialize_stream` (`main.py` 101-118): stop-and-close the old
stream if it is active, then construct the new stream; a constructor
exception is caught and reported as `false`. -/
def initialize_stream (s : RecorderState) (failInit : Bool) :
    Bool × RecorderState :=
  let s1 := if s.stream = StreamState.active then { s with stream := StreamState.closed } else s
  if failInit then (false, s1)
  else (true, { s1 with stream := StreamState.opened })

/-- `_audio_callback` (`main.py` 120-127): extend the buffer with the
chunk only while `is_recording` is set. -/
def audio_callback (s : RecorderState) (chunk : List ℚ) : RecorderState :=
  if s.isRecording then { s with buffer := s.buffer ++ chunk } else s

/-- All chunks the driver delivers while the stream is running. -/
def deliverChunks (s : RecorderState) (chunks : List (List ℚ)) : RecorderState :=
  chunks.foldl audio_callback s

/-- `record` (`main.py` 129-155).  Resets the buffer and the recording
flag, initializes the stream (raising `RuntimeError` when that failed),
then runs the `with` block: start, deliver the window's chunks while
sleeping, stop-and-close; the `finally` clause clears `is_recording`
and closes the stream only when it is still active.  Returns the
accumulated buffer on success and the propagated exception otherwise. -/
def record (s : RecorderState) (f : FailSpec) (chunks : List (List ℚ)) :
    Except String (List ℚ) × RecorderState :=
  let s0 := { s with buffer := [], isRecording := false }
  match initialize_stream s0 f.failInit with
  | (false, s1) => (Except.error "Failed to initialize audio stream", s1)
  | (true, s1) =>
    let s2 := { s1 with isRecording := true }
    if f.failStart then
      -- `with` entry raised: exit handler skipped; `finally` clears the
      -- flag but the `if self.stream.active` guard is false, so the
      -- opened stream is not closed.
      (Except.error "error starting stream", { s2 with isRecording := false })
    else
      let s3 := { s2 with stream := StreamState.active }
      let s4 := deliverChunks s3 chunks
      if f.failSleep then
        -- body raised: `with` exit stops and closes; `finally` clears
        -- the flag, guard false, nothing more to do.
        (Except.error "error during recording",
         { s4 with stream := StreamState.closed, isRecording := false })
      else
        let s5 := { s4 with stream := StreamState.closed, isRecording := false }
        (Except.ok s5.buffer, s5)

/-! ## Classifier wrapper (`pretrained_detector.py` 45-117)

The YAMNet model and librosa's resampler are external collaborators;
they enter the embedding as parameters (`model`, `resample`), each
allowed to fail.  Numpy reductions over zero-size arrays raise
`ValueError`; those raises are modelled by `Except.error` results from
the `np_` helpers below and flow to the enclosing `try` blocks exactly
as the exceptions do in the source. -/

/-- `np.max` over a one-dimensional array: raises on a zero-size array. -/
def np_max (l : List ℚ) : Except String ℚ :=
  match l.max? with
  | some m => Except.ok m
  | none => Except.error "zero-size array to reduction operation maximum"

/-- Numpy integer indexing into a row: raises `IndexError` when out of
bounds. -/
def np_index (row : List ℚ) (i : ℕ) : Except String ℚ :=
  if h : i < row.length then Except.ok (row.get ⟨i, h⟩)
  else Except.error "index out of bounds"

/-- `np.max(scores, axis=0)` (`pretrained_detector.py` 92): raises on an
empty score matrix; its value feeds only the top-5 debug logging, so the
embedding records just whether the reduction succeeded. -/
def np_max_axis0 (scores : List (List ℚ)) : Except String Unit :=
  if scores = [] then Except.error "zero-size array to reduction operation maximum"
  else Except.ok ()

/-- YAMNet class indices monitored for gunshots
(`pretrained_detector.py` 32-36). -/
def gunshot_classes : List ℕ := [417, 418, 419]

/-- `process_audio` (`pretrained_detector.py` 45-79): cast to float
(identity on the rational model), flatten (inputs are already flat
sample lists), normalize by the peak when it is positive — `np.max` on
an empty array raises here — then resample when the rate is not 16 kHz.
Internal errors are logged and re-raised (`Except` propagation). -/
def process_audio (resample : List ℚ → ℕ → Except String (List ℚ))
    (audio_data : List ℚ) (sample_rate : ℕ) : Except String (List ℚ) := do
  let peak ← np_max (audio_data.map (fun x => |x|))
  let normalized := if peak > 0 then audio_data.map (fun x => x / peak) else audio_data
  if sample_rate ≠ 16000 then resample normalized sample_rate else pure normalized

/-- The fallible body of `detect`'s `try` block
(`pretrained_detector.py` 83-113): process the audio, run the model,
reduce `all_probs`, gather `scores[:, gunshot_classes]` and take its
maximum. -/
def detectPipeline (resample : List ℚ → ℕ → Except String (List ℚ))
    (model : List ℚ → Except String (List (List ℚ)))
    (audio_data : List ℚ) (sample_rate : ℕ) : Except String ℚ := do
  let processed ← process_audio resample audio_data sample_rate
  let scores ← model processed
  let _ ← np_max_axis0 scores
  let gunshot_probs ← scores.mapM (fun row => gunshot_classes.mapM (np_index row))
  np_max gunshot_probs.flatten

/-- `detect` (`pretrained_detector.py` 81-117): return the maximum
gunshot-class probability; any exception raised inside the `try` block
is caught and turned into the score `0.0`. -/
def detect (resample : List ℚ → ℕ → Except String (List ℚ))
    (model : List ℚ → Except String (List (List ℚ)))
    (audio_data : List ℚ) (sample_rate : ℕ) : ℚ :=
  match detectPipeline resample model audio_data sample_rate with
  | Except.ok p => p
  | Except.error _ => 0

/-! ## Detection orchestrator (`main`, `main.py` 179-208)

Each pass of the `while True:` loop either completes a window (record
then classify, yielding a score and the timestamp taken when the
decision is made) or raises from `record` / the classifier call; the
`except Exception` block logs, sleeps `sd.sleep(1000)` milliseconds and
continues.  `KeyboardInterrupt` is not an `Exception` subclass, so it
escapes the inner handler and ends the loop. -/

def DETECTION_THRESHOLD : ℚ := 0.2

/-- Filename built at `main.py` 196-197 from the current timestamp
formatted `%Y%m%d_%H%M%S`. -/
def gunshotFilename (timestamp : String) : String :=
  "gunshot_" ++ timestamp ++ ".wav"

inductive IterOutcome where
  | recordError (msg : String)
  | classifierError (msg : String)
  | classified (window : List ℚ) (score : ℚ) (timestamp : String)
  deriving DecidableEq, Repr

inductive LoopAction where
  | errorBackoff (msg : String) (sleepMs : ℕ)
  | decided (saved : Option (String × WavFile))
  deriving DecidableEq, Repr

/-- One pass of the monitoring loop (`main.py` 180-205): an exception
from `record` or from the classifier call reaches the `except` block,
which logs the message and sleeps 1000 ms before continuing; a
completed window is saved exactly when its score exceeds the 0.2
threshold, under the timestamp-derived filename. -/
def loopIteration : IterOutcome → LoopAction
  | IterOutcome.recordError msg => LoopAction.errorBackoff msg 1000
  | IterOutcome.classifierError msg => LoopAction.errorBackoff msg 1000
  | IterOutcome.classified w score ts =>
      LoopAction.decided
        (if score > DETECTION_THRESHOLD then some (gunshotFilename ts, save_audio w) else none)

/-- The saved (filename, file) of a loop pass, when one was persisted. -/
def savedFile : LoopAction → Option (String × WavFile)
  | LoopAction.errorBackoff _ _ => none
  | LoopAction.decided s => s

inductive LoopEvent where
  | iter (o : IterOutcome)
  | interrupt
  deriving DecidableEq, Repr

/-- The `while True:` loop over a finite schedule of events: processes
iteration outcomes one after another and stops only when a
`KeyboardInterrupt` arrives; returns the actions taken and whether the
loop ended by interrupt. -/
def runLoop : List LoopEvent → List LoopAction × Bool
  | [] => ([], false)
  | LoopEvent.interrupt :: _ => ([], true)
  | LoopEvent.iter o :: rest =>
      let r := runLoop rest
      (loopIteration o :: r.1, r.2)

/-! ## Helper lemmas -/

lemma foldl_push (chunks : List (List ℚ)) (b : List ℚ) :
    chunks.foldl push b = b ++ chunks.flatten := by
  induction chunks generalizing b with
  | nil => simp
  | cons c cs ih => simp [push, ih (b ++ c)]

lemma audio_callback_recording (st : StreamState) (b c : List ℚ) :
    audio_callback { stream := st, buffer := b, isRecording := true } c
      = { stream := st, buffer := b ++ c, isRecording := true } := by
  simp [audio_callback]

lemma deliverChunks_recording (st : StreamState) (b : List ℚ)
    (chunks : List (List ℚ)) :
    deliverChunks { stream := st, buffer := b, isRecording := true } chunks
      = { stream := st, buffer := b ++ chunks.flatten, isRecording := true } := by
  induction chunks generalizing b with
  | nil => simp [deliverChunks]
  | cons c cs ih =>
      show cs.foldl audio_callback
          (audio_callback { stream := st, buffer := b, isRecording := true } c) = _
      rw [audio_callback_recording]
      have h := ih (b ++ c)
      simpa [List.append_assoc] using h

lemma record_noFail (s : RecorderState) (chunks : List (List ℚ)) :
    record s noFail chunks
      = (Except.ok chunks.flatten,
         { stream := StreamState.closed, buffer := chunks.flatten,
           isRecording := false }) := by
  by_cases h : s.stream = StreamState.active <;>
    simp [record, initialize_stream, noFail, h, deliverChunks_recording]

/-! ## Claim theorems -/

/-- C1: the spec demands that an adopted device rate be propagated to
the input stream, the classifier invocation and the WAV header; in the
code the adopted rate only lands in the never-read global
`LOCAL_SAMPLE_RATE`, while all three consumers use the constant 44100.
Evaluated at a device whose native rate is 48000. -/
theorem adopted_rate_not_propagated :
    localSampleRate 48000 = some 48000
    ∧ adoptedRate 48000 = 48000
    ∧ streamOpenRate 48000 = 44100
    ∧ classifierInvokeRate 48000 = 44100
    ∧ wavHeaderRate 48000 = 44100
    ∧ streamOpenRate 48000 ≠ adoptedRate 48000
    ∧ classifierInvokeRate 48000 ≠ adoptedRate 48000
    ∧ wavHeaderRate 48000 ≠ adoptedRate 48000 := by
  decide

/-- C2: `save_audio` writes the float32 window bytes unconverted under a
16-bit mono header, so the `wave` module records `4*n/2 = 2*n` frames
for an `n`-sample window instead of `n`.  Evaluated at a 5-sample
window: the header fields match the claim but the frame count is 10. -/
theorem save_audio_frame_count_bug :
    (save_audio (List.replicate 5 (1 / 2 : ℚ))).nchannels = 1
    ∧ (save_audio (List.replicate 5 (1 / 2 : ℚ))).sampwidth = 2
    ∧ (save_audio (List.replicate 5 (1 / 2 : ℚ))).framerate = 44100
    ∧ wavFrameCount (save_audio (List.replicate 5 (1 / 2 : ℚ))) = 10
    ∧ (List.replicate 5 (1 / 2 : ℚ)).length = 5
    ∧ (10 : ℕ) ≠ 5
    ∧ saveCreatesDirectory = true := by
  decide

/-- C6 counterexample: the code's drain (`np.array(self.audio_buffer)`)
does not reset the buffer, so after pushing the chunk `[1]` a second
drain returns `[1]` again, not the empty sequence the claim requires. -/
theorem second_drain_not_empty :
    (drainAll (push [] [(1 : ℚ)])).1 = [(1 : ℚ)]
    ∧ (drainAll (drainAll (push [] [(1 : ℚ)])).2).1 = [(1 : ℚ)]
    ∧ ([(1 : ℚ)] : List ℚ) ≠ [] := by
  decide

/-- C6 amended: a drain after N pushes returns exactly the concatenation
of the pushed chunks in push order, but draining does not reset the
buffer — a second drain before any new push returns the same window
again (the buffer is only cleared at the start of the next `record`
call). -/
theorem drain_returns_pushed_chunks (chunks : List (List ℚ)) :
    (drainAll (chunks.foldl push [])).1 = chunks.flatten
    ∧ (drainAll (drainAll (chunks.foldl push [])).2).1 = chunks.flatten := by
  simp [drainAll, foldl_push]

/-- C5 counterexample: a window persisted at score 0.9 and timestamp
`20260101_000000` is saved as `gunshot_20260101_000000.wav`, which is
not the `event_<YYYYMMDD_HHMMSS>.wav` name the claim requires. -/
theorem persist_filename_not_event_pattern :
    savedFile (loopIteration
        (IterOutcome.classified [(1 : ℚ)] (9 / 10) "20260101_000000"))
      = some ("gunshot_20260101_000000.wav", save_audio [(1 : ℚ)])
    ∧ "gunshot_20260101_000000.wav" ≠ "event_" ++ "20260101_000000" ++ ".wav" := by
  have h : (9 / 10 : ℚ) > DETECTION_THRESHOLD := by norm_num [DETECTION_THRESHOLD]
  refine ⟨?_, by decide⟩
  simp [savedFile, loopIteration, h, gunshotFilename]

/-- C5 amended: a completed window is persisted iff its score is
strictly above the 0.2 threshold, and the persisted file's name is
`gunshot_<YYYYMMDD_HHMMSS>.wav` (the code's prefix is `gunshot_`, not
`event_`), with the file produced by `save_audio` on the window. -/
theorem persist_iff_above_threshold (w : List ℚ) (score : ℚ) (ts : String) :
    ((savedFile (loopIteration (IterOutcome.classified w score ts))).isSome
        ↔ score > DETECTION_THRESHOLD)
    ∧ (∀ fn file,
        savedFile (loopIteration (IterOutcome.classified w score ts))
            = some (fn, file) →
          fn = "gunshot_" ++ ts ++ ".wav" ∧ file = save_audio w) := by
  constructor
  · by_cases h : score > DETECTION_THRESHOLD <;>
      simp [savedFile, loopIteration, h]
  · intro fn file hs
    by_cases h : score > DETECTION_THRESHOLD <;>
      simp [savedFile, loopIteration, h, gunshotFilename] at hs
    exact ⟨hs.1.symm, hs.2.symm⟩

/-- C5 witness: the amended theorem applied at the concrete window
`[1]`, score 0.9 and timestamp `20260105_120000`. -/
theorem persist_iff_above_threshold_witness :
    ((savedFile (loopIteration
          (IterOutcome.classified [(1 : ℚ)] (9 / 10) "20260105_120000"))).isSome
        ↔ (9 / 10 : ℚ) > DETECTION_THRESHOLD)
    ∧ ("gunshot_20260105_120000.wav" = "gunshot_" ++ "20260105_120000" ++ ".wav"
        ∧ save_audio [(1 : ℚ)] = save_audio [(1 : ℚ)]) :=
  ⟨(persist_iff_above_threshold [(1 : ℚ)] (9 / 10) "20260105_120000").1,
   (persist_iff_above_threshold [(1 : ℚ)] (9 / 10) "20260105_120000").2
     "gunshot_20260105_120000.wav" (save_audio [(1 : ℚ)])
     (by simp [savedFile, loopIteration, gunshotFilename,
           show (9 / 10 : ℚ) > DETECTION_THRESHOLD by
             norm_num [DETECTION_THRESHOLD]])⟩

/-- C3 counterexample: starting from a closed stream, a failure while
starting the stream (entering the `with` block) propagates the error but
leaves the freshly constructed stream opened, because the `finally`
clause closes the stream only when `self.stream.active` holds — the
stream is not left closed as the claim requires. -/
theorem record_start_failure_leaves_stream_opened :
    (record { stream := StreamState.closed, buffer := [], isRecording := false }
        { failInit := false, failStart := true, failSleep := false } []).2.stream
      = StreamState.opened
    ∧ StreamState.opened ≠ StreamState.closed
    ∧ (record { stream := StreamState.closed, buffer := [], isRecording := false }
        { failInit := false, failStart := true, failSleep := false } []).1
      = Except.error "error starting stream" := by
  exact ⟨rfl, by decide, rfl⟩

/-- C3 amended: every injected failure during `record` propagates an
error and leaves the callback disabled and the stream not active; an
initialization failure leaves the stream as the (closed-if-it-was-
active) state it had, and a failure during the capture interval leaves
it closed, but a failure while starting the stream leaves it opened
rather than closed; in every case the recorder is reopenable — a
subsequent `record` with no failure returns exactly its own chunks. -/
theorem record_failure_paths (s : RecorderState) (f : FailSpec)
    (chunks : List (List ℚ))
    (hf : f.failInit = true ∨ f.failStart = true ∨ f.failSleep = true) :
    (∃ e, (record s f chunks).1 = Except.error e)
    ∧ (record s f chunks).2.isRecording = false
    ∧ (record s f chunks).2.stream ≠ StreamState.active
    ∧ (f.failInit = true →
        (record s f chunks).2.stream
          = (if s.stream = StreamState.active then StreamState.closed else s.stream))
    ∧ (f.failInit = false → f.failStart = true →
        (record s f chunks).2.stream = StreamState.opened)
    ∧ (f.failInit = false → f.failStart = false →
        (record s f chunks).2.stream = StreamState.closed)
    ∧ (∀ chunks2 : List (List ℚ),
        (record (record s f chunks).2 noFail chunks2).1
          = Except.ok chunks2.flatten) := by
  obtain ⟨fi, fs, fl⟩ := f
  by_cases hst : s.stream = StreamState.active <;>
    cases fi <;> cases fs <;> cases fl <;>
    simp_all [record, initialize_stream, deliverChunks_recording, noFail]

/-- C3 witness: the amended theorem applied to an initialization
failure from the closed idle state. -/
theorem record_failure_paths_witness :
    ∃ e, (record { stream := StreamState.closed, buffer := [], isRecording := false }
        { failInit := true, failStart := false, failSleep := false } []).1
      = Except.error e :=
  (record_failure_paths
      { stream := StreamState.closed, buffer := [], isRecording := false }
      { failInit := true, failStart := false, failSleep := false } []
      (Or.inl rfl)).1

/-- C4: an error raised by `record` or by the classifier call inside the
monitoring loop is logged and followed by a 1000 ms backoff sleep, after
which the loop continues with the next iteration; a schedule with no
interrupt is processed in full (one action per event, never
terminating), and the loop terminates exactly when an interrupt
arrives. -/
theorem loop_survives_failures (events : List LoopEvent)
    (hni : LoopEvent.interrupt ∉ events) :
    ((runLoop events).2 = false ∧ (runLoop events).1.length = events.length)
    ∧ (∀ msg, loopIteration (IterOutcome.recordError msg)
        = LoopAction.errorBackoff msg 1000)
    ∧ (∀ msg, loopIteration (IterOutcome.classifierError msg)
        = LoopAction.errorBackoff msg 1000)
    ∧ (∀ rest, runLoop (LoopEvent.interrupt :: rest) = ([], true)) := by
  refine ⟨?_, fun msg => rfl, fun msg => rfl, fun rest => rfl⟩
  induction events with
  | nil => simp [runLoop]
  | cons e rest ih =>
      cases e with
      | interrupt => simp at hni
      | iter o =>
          have hrest : LoopEvent.interrupt ∉ rest := fun h =>
            hni (List.mem_cons_of_mem _ h)
          have hr := ih hrest
          simp [runLoop, hr.1, hr.2]

/-- C4 witness: a two-event schedule containing a record failure is
processed completely without terminating the loop. -/
theorem loop_survives_failures_witness :
    (runLoop [LoopEvent.iter (IterOutcome.recordError "PortAudio error"),
        LoopEvent.iter (IterOutcome.classified [] 0 "20260105_120000")]).2 = false
    ∧ (runLoop [LoopEvent.iter (IterOutcome.recordError "PortAudio error"),
        LoopEvent.iter (IterOutcome.classified [] 0 "20260105_120000")]).1.length
      = 2 :=
  (loop_survives_failures
      [LoopEvent.iter (IterOutcome.recordError "PortAudio error"),
       LoopEvent.iter (IterOutcome.classified [] 0 "20260105_120000")]
      (by decide)).1

/-- C7: `calculate_db` always lands in `[DB_MIN, DB_MAX]`, returns
`DB_MIN` on empty input, and returns `DB_MIN` on an all-zero (zero-RMS)
window — the `rms == 0` special case, so never a NaN or `-inf`. -/
theorem calculate_db_range_and_silence :
    (∀ s : List ℝ, DB_MIN ≤ calculate_db s ∧ calculate_db s ≤ DB_MAX)
    ∧ calculate_db [] = DB_MIN
    ∧ (∀ n : ℕ, calculate_db (List.replicate n 0) = DB_MIN) := by
  refine ⟨?_, by simp [calculate_db], ?_⟩
  · intro s
    by_cases h : s.length = 0
    · simp only [calculate_db, if_pos h]
      norm_num [DB_MIN, DB_MAX]
    · simp only [calculate_db, if_neg h]
      refine ⟨le_max_right _ _, max_le (le_trans (min_le_right _ _) ?_) ?_⟩
      · norm_num
      · norm_num [DB_MIN, DB_MAX]
  · intro n
    cases n with
    | zero => simp [calculate_db]
    | succ m =>
        simp [calculate_db, List.sum_replicate]

/-- C9: `detect` is total — the caller sees either the maximum
gunshot-class score computed by the fallible pipeline or the score 0.0
when any internal step (processing, resampling, inference, the numpy
reductions) raised; in particular an empty input, whose peak reduction
raises inside `process_audio`, yields 0.0 for every resampler and
model. -/
theorem detect_error_returns_zero
    (resample : List ℚ → ℕ → Except String (List ℚ))
    (model : List ℚ → Except String (List (List ℚ)))
    (audio_data : List ℚ) (sample_rate : ℕ) :
    ((∀ e, detectPipeline resample model audio_data sample_rate = Except.error e →
        detect resample model audio_data sample_rate = 0)
     ∧ (∀ p, detectPipeline resample model audio_data sample_rate = Except.ok p →
        detect resample model audio_data sample_rate = p))
    ∧ (audio_data = [] → detect resample model audio_data sample_rate = 0) := by
  refine ⟨⟨fun e he => ?_, fun p hp => ?_⟩, fun h => ?_⟩
  · simp [detect, he]
  · simp [detect, hp]
  · subst h
    rfl

/-- C9 witness: on the empty window every resampler and model yield the
score 0.0 through the caught-error path. -/
theorem detect_error_returns_zero_witness :
    detect (fun a _ => Except.ok a) (fun _ => Except.ok [[(0 : ℚ)]]) [] 44100 = 0 :=
  (detect_error_returns_zero (fun a _ => Except.ok a)
      (fun _ => Except.ok [[(0 : ℚ)]]) [] 44100).2 rfl

/-- C10: every successful `record` call returns exactly the
concatenation of the chunks delivered during that call — the buffer is
cleared at entry and the callback only appends after the reset, so no
samples from a previous window or from outside the active recording
appear in the returned window, whatever state the recorder was in. -/
theorem record_window_isolated (s : RecorderState) (f : FailSpec)
    (chunks : List (List ℚ)) (w : List ℚ)
    (h : (record s f chunks).1 = Except.ok w) :
    w = chunks.flatten := by
  obtain ⟨fi, fs, fl⟩ := f
  by_cases hst : s.stream = StreamState.active <;>
    cases fi <;> cases fs <;> cases fl <;>
    simp_all [record, initialize_stream, deliverChunks_recording]

/-- C10 witness: a `record` from a dirty state (stale buffer contents,
stale recording flag) still returns only its own two chunks. -/
theorem record_window_isolated_witness :
    ([(1 : ℚ), 2, 3] : List ℚ) = ([[(1 : ℚ)], [2, 3]] : List (List ℚ)).flatten :=
  record_window_isolated
    { stream := StreamState.closed, buffer := [(5 : ℚ), 6], isRecording := true }
    noFail [[(1 : ℚ)], [2, 3]] [(1 : ℚ), 2, 3] rfl

end GSD

